/-
Verification of the OCO/TSL order-group orchestrator of this repository.

The development shallowly embeds the two orchestrator variants:
  * `src/trading_engine/orders/oco.py` (namespace `TE`), and
  * `src/backend/orders/oco.py`        (namespace `BE`).

Modelling conventions:
  * SQLite rows become Lean structures; the per-group tables become lists of
    rows carried in an explicit store value, and every handler is a pure
    function from store (plus the incoming message / gateway behaviour) to
    store.  The claims under study are all about a single group, so the
    store carries one group row together with its child rows (the source's
    SQL queries filter by `group_id` / match by broker order id exactly as
    modelled here).
  * Python floats become `ℚ`; broker ids and statuses stay `String`.
  * `dict.get` becomes `Option`; the source's multiple alias keys for the
    same datum (`order_id` / `orderid` / `orderno` / `orderId`) are
    collapsed into a single optional field, since every claim is insensitive
    to which alias carried the value.
  * Calls to the Order Gateway (`place_order`, `cancel_order`,
    `modify_order`, `get_order`) are modelled by an environment record that
    fixes each call's outcome, and every handler additionally returns the
    trace of gateway commands it issued, so that "no duplicate order was
    sent" style claims are statable.
  * Exceptions become `Except` results; a `try/except` that logs and
    continues becomes the corresponding case split.
  * The background TSL thread spawn (`threading.Thread(...)`, oco.py lines
    307-312) is concurrency and is not part of the store model; the thread
    body `_tsl_runner` itself is modelled as the pure per-cycle step
    `tslStep` / `tslRun` below.
-/
import Mathlib

namespace TE

/-- An order payload dict as built and consumed by
`trading_engine/orders/oco.py` (`create_group`, `_tsl_runner`).  Fields are
optional because the source reads them with `dict.get`.  Numeric fields keep
their numeric value (the source's `str(...)` wrapping when building child
payloads is an injective re-encoding and is dropped). -/
structure Payload where
  priceType : Option String := none
  tradingsymbol : Option String := none
  quantity : Option Int := none
  price : Option ℚ := none
  productType : Option String := none
  orderType : Option String := none
  exchange : Option String := none
  token : Option String := none
  deriving Repr, DecidableEq

/-- A row of the `oco_children` table (oco.py lines 87-104).
`tsl_params` is carried only through its `enabled` bit, the single field the
modelled code paths read. -/
structure Child where
  childId : Nat
  role : String
  qty : Int
  price : ℚ
  payload : Payload
  orderId : Option String
  status : String
  tslEnabled : Bool
  deriving Repr, DecidableEq

/-- A row of the `oco_groups` table (oco.py lines 75-86). -/
structure Group where
  parentPayload : Payload
  parentOrderId : Option String
  status : String
  deriving Repr, DecidableEq

/-- The durable store restricted to one OCO group: the group row plus its
child rows in `child_id` order (the source reads children with
`ORDER BY child_id`, line 157). -/
structure Store where
  group : Group
  children : List Child
  deriving Repr, DecidableEq

/-- A normalized order-update message as consumed by
`handle_order_update` (oco.py lines 229-243): alias keys collapsed, absent
keys are `none`. -/
structure Msg where
  orderId : Option String
  status : Option String
  filledQty : Option Nat
  deriving Repr, DecidableEq

/-- A place-order API response as parsed by oco.py lines 216-220 and
298-303: an optional `orders` array whose entries carry an optional
`order_id`, and an optional top-level `order_id`. -/
structure PlaceResp where
  orders : List (Option String)
  orderId : Option String
  deriving Repr, DecidableEq

/-- Order-id extraction from a place response, oco.py lines 216-220 (and
identically lines 299-303): if the `orders` array is present and non-empty,
take the first entry's id - even when that is absent; otherwise take the
top-level `order_id` when truthy (an empty string is falsy in Python). -/
def extractOrderId (r : PlaceResp) : Option String :=
  match r.orders with
  | o :: _ => o
  | [] =>
    match r.orderId with
    | some s => if s = "" then none else some s
    | none => none

/-- Gateway commands a handler can issue, in issue order. -/
inductive Cmd where
  | placeParentOrder
  | placeChildOrder (childId : Nat)
  | cancelOrder (orderId : String)
  | getOrder (orderId : String)
  | modifyOrder (price : ℚ)
  deriving Repr, DecidableEq

/-- Fixed outcomes of the gateway calls a handler may make: the
`orders_client` collaborator of `OCOManager`.  `Except.error` models the
call raising. -/
structure Env where
  placeParentResp : Except Unit PlaceResp
  placeChildResp : Nat → Except Unit PlaceResp
  cancelSucceeds : String → Bool
  getOrderFilled : Except Unit (Option Nat)

/-- Python's `str.upper()` on the ASCII strings the source compares;
defined by mapping `Char.toUpper` over the characters (semantically
`String.toUpper`, stated this way so it reduces structurally). -/
def pyUpper (s : String) : String := ⟨s.data.map Char.toUpper⟩

/-- Uppercased status of a message, `(status or "").upper()`
(oco.py lines 279, 327). -/
def statusU (m : Msg) : String := pyUpper (m.status.getD "")

/-- Child fill statuses, oco.py line 330. -/
def childFillStatuses : List String := ["COMPLETE", "FILLED", "COMP"]

/-- Child cancel statuses, oco.py lines 335 and 338. -/
def childCancelStatuses : List String := ["CANCELLED", "CXL", "CANCELED"]

/-- Parent statuses that trigger the children-placement path,
oco.py line 280. -/
def parentFillTriggers : List String :=
  ["COMPLETE", "COMP", "FILLED", "OPEN", "PARTIAL"]

/-- Parent terminal non-fill statuses, oco.py line 317. -/
def parentTerminalStatuses : List String := ["CANCELLED", "REJECTED", "FAILED"]

/-- Update every child row carrying the given `child_id`
(`UPDATE oco_children ... WHERE child_id=?`, oco.py lines 141-145). -/
def updateChild (cid : Nat) (f : Child → Child) (cs : List Child) : List Child :=
  cs.map fun c => if c.childId = cid then f c else c

/-- One iteration of the sibling-cancellation loop,
`_cancel_sibling_children` (oco.py lines 343-356): the filled child is
skipped; a sibling is acted on exactly when its `order_id` is set - the
source checks nothing else about it; when `cancel_order` raises, the row is
left untouched (the failure is logged and the loop continues). -/
def cancelSiblingStep (env : Env) (filledChildId : Nat) (c : Child) :
    Child × List Cmd :=
  if c.childId = filledChildId then (c, [])
  else
    match c.orderId with
    | none => (c, [])
    | some oid =>
      if env.cancelSucceeds oid then
        ({ c with status := "CANCELLED" }, [Cmd.cancelOrder oid])
      else (c, [Cmd.cancelOrder oid])

/-- The sibling-cancellation loop over the group's children,
`_cancel_sibling_children` (oco.py lines 343-356). -/
def cancelSiblings (env : Env) (filledChildId : Nat) :
    List Child → List Child × List Cmd
  | [] => ([], [])
  | c :: cs =>
    let r := cancelSiblingStep env filledChildId c
    let rest := cancelSiblings env filledChildId cs
    (r.1 :: rest.1, r.2 ++ rest.2)

/-- `_handle_child_update` (oco.py lines 322-341): unconditionally rewrite
the leg's order id and status from the event; on a fill status cancel the
siblings and set the group `CHILD_FILLED`; on a cancel status set the group
`ALL_CHILDREN_CANCELLED` exactly when every child's (uppercased) status is a
cancel variant. -/
def handleChildUpdate (env : Env) (s : Store) (cid : Nat) (m : Msg) :
    Store × List Cmd :=
  let stU := statusU m
  let cs1 := updateChild cid (fun c => { c with orderId := m.orderId, status := stU })
      s.children
  if stU ∈ childFillStatuses then
    let r := cancelSiblings env cid cs1
    ({ group := { s.group with status := "CHILD_FILLED" }, children := r.1 }, r.2)
  else if stU ∈ childCancelStatuses then
    if cs1.all (fun c => childCancelStatuses.contains (pyUpper c.status)) then
      ({ group := { s.group with status := "ALL_CHILDREN_CANCELLED" },
         children := cs1 }, [])
    else ({ s with children := cs1 }, [])
  else ({ s with children := cs1 }, [])

/-- One iteration of the children-placement loop inside
`_handle_parent_update` (oco.py lines 292-314): a child whose `order_id` is
already set is skipped outright; otherwise `place_order` is called, and on
success the extracted id and status `PLACED` are stored; when the call
raises, the row is left untouched (logged, loop continues). -/
def placeChildStep (env : Env) (c : Child) : Child × List Cmd :=
  match c.orderId with
  | some _ => (c, [])
  | none =>
    match env.placeChildResp c.childId with
    | .ok resp =>
      ({ c with orderId := extractOrderId resp, status := "PLACED" },
       [Cmd.placeChildOrder c.childId])
    | .error _ => (c, [Cmd.placeChildOrder c.childId])

/-- The children-placement loop of `_handle_parent_update`
(oco.py lines 290-314). -/
def placeChildren (env : Env) : List Child → List Child × List Cmd
  | [] => ([], [])
  | c :: cs =>
    let r := placeChildStep env c
    let rest := placeChildren env cs
    (r.1 :: rest.1, r.2 ++ rest.2)

/-- The filled-quantity resolution of `_handle_parent_update`
(oco.py lines 282-287): fetch the parent order (a raised exception yields
the empty dict, hence `none`), then
`int(ord_resp.get("filled_qty") or raw_msg.get("filled_qty") or 0)` -
Python's `or` falls through on `None` and on `0`. -/
def resolvedFilled (env : Env) (m : Msg) : Nat :=
  let fetched : Option Nat :=
    match env.getOrderFilled with
    | .ok v => v
    | .error _ => none
  match fetched with
  | some n => if n = 0 then m.filledQty.getD 0 else n
  | none => m.filledQty.getD 0

/-- `_handle_parent_update` (oco.py lines 273-320): on a fill-trigger
status, fetch the parent order and, when the resolved filled quantity is
positive, run the children-placement loop and set the group status
`PARENT_FILLED_CHILDREN_PLACED`; on a terminal non-fill status set the
group status to `PARENT_` followed by that status; otherwise do nothing. -/
def handleParentUpdate (env : Env) (s : Store) (oid : String) (m : Msg) :
    Store × List Cmd :=
  let stU := statusU m
  if stU ∈ parentFillTriggers then
    if resolvedFilled env m > 0 then
      let r := placeChildren env s.children
      ({ group := { s.group with status := "PARENT_FILLED_CHILDREN_PLACED" },
         children := r.1 }, Cmd.getOrder oid :: r.2)
    else (s, [Cmd.getOrder oid])
  else if stU ∈ parentTerminalStatuses then
    ({ s with group := { s.group with status := "PARENT_" ++ stU } }, [])
  else (s, [])

/-- `handle_order_update` (oco.py lines 229-270): extract the order id
(a missing or empty id aborts), dispatch to the parent handler when it
matches the group's `parent_order_id`, else to the child handler when some
child row carries it as `order_id`, else ignore. -/
def handleOrderUpdate (env : Env) (s : Store) (m : Msg) : Store × List Cmd :=
  match m.orderId with
  | none => (s, [])
  | some oid =>
    if oid = "" then (s, [])
    else if s.group.parentOrderId = some oid then
      handleParentUpdate env s oid m
    else
      match s.children.find? (fun c => c.orderId == some oid) with
      | some c => handleChildUpdate env s c.childId m
      | none => (s, [])

/-- A target child specification passed to `create_group`
(oco.py lines 162-185): `{"qty": .., "price": .., "payload": optional}`. -/
structure TargetSpec where
  qty : Int
  price : ℚ
  payload : Option Payload
  deriving Repr, DecidableEq

/-- The `tsl` sub-dict of a stoploss specification (oco.py line 196-197);
only its `enabled` bit reaches the modelled code paths. -/
structure TslCfg where
  enabled : Bool
  deriving Repr, DecidableEq

/-- A stoploss specification passed to `create_group`
(oco.py lines 186-197). -/
structure SlSpec where
  qty : Int
  price : ℚ
  payload : Option Payload
  tsl : Option TslCfg
  deriving Repr, DecidableEq

/-- The synthesized exit payload that `create_group` builds for a leg whose
`payload` was not supplied (oco.py lines 176-184 and 187-195): price type as
given, instrument and exchange copied from the parent payload, product type
inherited with default `NORMAL`, and order side `SELL` exactly when the
parent side uppercases to `BUY`, else `BUY`. -/
def synthExitPayload (parent : Payload) (qty : Int) (price : ℚ)
    (priceType : String) : Payload :=
  { priceType := some priceType
    tradingsymbol := parent.tradingsymbol
    quantity := some qty
    price := some price
    productType := some (parent.productType.getD "NORMAL")
    orderType :=
      some (if pyUpper (parent.orderType.getD "") = "BUY" then "SELL" else "BUY")
    exchange := parent.exchange
    token := none }

/-- The target child rows inserted by `create_group` (oco.py lines
175-185), numbering `child_id` sequentially as SQLite AUTOINCREMENT does. -/
def targetLegs (parent : Payload) : Nat → List TargetSpec → List Child
  | _, [] => []
  | i, t :: ts =>
    { childId := i
      role := "target"
      qty := t.qty
      price := t.price
      payload := t.payload.getD (synthExitPayload parent t.qty t.price "LIMIT")
      orderId := none
      status := "PENDING"
      tslEnabled := false } :: targetLegs parent (i + 1) ts

/-- The stoploss child row inserted by `create_group` (oco.py lines
186-197) when a stoploss spec is given: the synthesized payload's price
type is `LIMIT` when the stop price is truthy and positive, else `SL`. -/
def stoplossLegs (parent : Payload) (nextId : Nat) : Option SlSpec → List Child
  | none => []
  | some s =>
    [{ childId := nextId
       role := "stoploss"
       qty := s.qty
       price := s.price
       payload := s.payload.getD
         (synthExitPayload parent s.qty s.price (if 0 < s.price then "LIMIT" else "SL"))
       orderId := none
       status := "PENDING"
       tslEnabled := (s.tsl.map (fun t => t.enabled)).getD false }]

/-- `place_parent` (oco.py lines 204-227), with the store lookup for the
group modelled by the `Option` argument: an absent group raises
`OCOError("Group not found")` before any gateway call; a raising
`place_order` is logged and re-raised with the group row untouched; on
success the extracted order id and status `PARENT_PLACED` are persisted. -/
inductive PlaceParentErr where
  | notFound
  | gateway
  deriving Repr, DecidableEq

def placeParent (env : Env) (g : Option Group) :
    Option Group × Except PlaceParentErr PlaceResp × List Cmd :=
  match g with
  | none => (none, .error .notFound, [])
  | some g =>
    match env.placeParentResp with
    | .error _ => (some g, .error .gateway, [Cmd.placeParentOrder])
    | .ok resp =>
      (some { g with parentOrderId := extractOrderId resp,
                     status := "PARENT_PLACED" },
       .ok resp, [Cmd.placeParentOrder])

/-- `create_group` (oco.py lines 162-202): insert the group row with status
`CREATED` and no parent order id, insert one `PENDING` child row per target
plus the stoploss row when given, all before any gateway call; when
`place_parent_immediately` is set, finish by running `place_parent` on the
fresh group (its raised error, if any, propagates with the rows kept). -/
def createGroup (env : Env) (parent : Payload) (targets : List TargetSpec)
    (stoploss : Option SlSpec) (placeParentImmediately : Bool) :
    Store × List Cmd :=
  let g : Group := { parentPayload := parent, parentOrderId := none,
                     status := "CREATED" }
  let cs := targetLegs parent 1 targets ++
    stoplossLegs parent (targets.length + 1) stoploss
  if placeParentImmediately then
    let r := placeParent env (some g)
    ({ group := r.1.getD g, children := cs }, r.2.2)
  else ({ group := g, children := cs }, [])

/-- The mutable state of one `_tsl_runner` loop (oco.py lines 391-399):
the persisted stop price of the leg (`current_sl_price`, kept in sync with
the `price` column) and the running extreme (`best_price`, `None` until the
first observation). -/
structure TslState where
  best : Option ℚ
  current : ℚ
  deriving Repr, DecidableEq

/-- The direction flag `_tsl_runner` computes from the child payload at
oco.py line 400: the leg is treated as a long-position exit when its own
order side uppercases to `SELL` (with default `BUY`). -/
def tslIsLongFromPayload (p : Payload) : Bool :=
  pyUpper (p.orderType.getD "BUY") = "SELL"

/-- The direction flag `_tsl_runner` actually uses: line 404 overwrites the
value computed at line 400 with the constant `True`, so every leg is
treated as a long-position exit regardless of its side. -/
def tslIsLong : Bool := true

/-- The comparison slack `1e-8` of oco.py lines 458 and 460. -/
def tslEps : ℚ := 1 / 100000000

/-- One polling cycle of `_tsl_runner` (oco.py lines 420-477) for a cycle
in which the leg is still active: `obs` is the LTP the cycle sees (`none`
when `get_ltp` yields nothing, line 430-437, in which case the cycle only
sleeps), `modifySucceeds` fixes the outcome of a `modify_order` call made
this cycle.  Returns the new state and the modify commands issued.  The
trail is `trail_by` points, or `best_price * trail_by / 100` in percent
mode; the stop is re-priced only when the candidate clears the current
stop by more than `1e-8` in the direction selected by `tslIsLong`. -/
def tslStep (trailBy : ℚ) (trailType : String) (st : TslState)
    (obs : Option ℚ) (modifySucceeds : Bool) : TslState × List Cmd :=
  match obs with
  | none => (st, [])
  | some ltp =>
    let best :=
      match st.best with
      | none => ltp
      | some b => if tslIsLong then max b ltp else min b ltp
    let delta := if trailType = "percent" then best * (trailBy / 100) else trailBy
    let newSl := if tslIsLong then best - delta else best + delta
    let shouldModify :=
      if tslIsLong then newSl > st.current + tslEps
      else newSl < st.current - tslEps
    if shouldModify then
      if modifySucceeds then
        ({ best := some best, current := newSl }, [Cmd.modifyOrder newSl])
      else ({ best := some best, current := st.current }, [Cmd.modifyOrder newSl])
    else ({ best := some best, current := st.current }, [])

/-- A run of consecutive `_tsl_runner` cycles: each list entry is one
cycle's observation paired with that cycle's `modify_order` outcome. -/
def tslRun (trailBy : ℚ) (trailType : String) :
    List (Option ℚ × Bool) → TslState → TslState × List Cmd
  | [], st => (st, [])
  | (o, mok) :: rest, st =>
    let r := tslStep trailBy trailType st o mok
    let r2 := tslRun trailBy trailType rest r.1
    (r2.1, r.2 ++ r2.2)

end TE

namespace BE

/-- One in-memory group of `backend/orders/oco.py` (`self.groups[gid]`,
lines 102-113). -/
structure Group where
  tradingsymbol : String
  exchange : String
  orderType : String
  quantity : Int
  targetOrderId : Option String
  stoplossOrderId : Option String
  status : String
  trailing : Option ℚ
  lastPrice : Option ℚ
  deriving Repr, DecidableEq

/-- One row of the backend `oco_groups` SQLite table (lines 32-45,
116-135). -/
structure DbRow where
  tradingsymbol : String
  exchange : String
  parentOrderId : Option String
  targetOrderId : Option String
  stoplossOrderId : Option String
  status : String
  deriving Repr, DecidableEq

/-- The backend manager state: the in-memory `self.groups` dict and the
durable table, both keyed by `group_id`. -/
structure State where
  groups : List (String × Group)
  db : List (String × DbRow)
  deriving Repr, DecidableEq

/-- Gateway commands the backend manager issues. -/
inductive Cmd where
  | placeOrder (orderType : String) (priceType : String) (price : ℚ)
  | cancelOrder (orderId : String)
  deriving Repr, DecidableEq

/-- A place-order response as read by the backend (`resp.get("order_id")`,
lines 78 and 94). -/
structure PlaceResp where
  orderId : Option String
  deriving Repr, DecidableEq

/-- Fixed outcomes of the backend's API calls; errors carry the raised
exception's message so that "re-raises the same error" is statable. -/
structure Env where
  placeTarget : Except String PlaceResp
  placeStoploss : Except String PlaceResp
  cancelOrder : String → Except String Unit

/-- Errors `create_group` can let escape, tagged by origin:
a duplicate group id (`ValueError`, line 63), a raising target placement
(re-raised, line 81), a raising stoploss placement (re-raised at line 100
after the rollback cancel), or the rollback cancel itself raising inside
the `except` block (line 99), which replaces the stoploss error. -/
inductive CreateErr where
  | alreadyExists
  | targetPlace (e : String)
  | stoplossPlace (e : String)
  | rollbackCancel (e : String)
  deriving Repr, DecidableEq

/-- The exit side of the stoploss order, line 88:
`"SELL" if order_type == "BUY" else "BUY"` (case-sensitive). -/
def oppositeSide (orderType : String) : String :=
  if orderType = "BUY" then "SELL" else "BUY"

/-- `INSERT OR REPLACE` into the backend `oco_groups` table
(lines 118-135). -/
def dbUpsert (db : List (String × DbRow)) (gid : String) (row : DbRow) :
    List (String × DbRow) :=
  if db.any (fun p => p.1 == gid) then
    db.map fun p => if p.1 = gid then (gid, row) else p
  else db ++ [(gid, row)]

/-- Backend `create_group` (lines 48-137): reject a duplicate id; place the
target order (a raise propagates with nothing recorded); place the stoploss
order - when that raises, cancel the just-placed target if its id was
returned and re-raise (a raise from the rollback cancel itself replaces the
error); only when both placements succeeded are the in-memory entry and the
DB row (status `OPEN`) written. -/
def createGroup (env : Env) (st : State) (gid tradingsymbol exchange
    orderType : String) (quantity : Int) (targetPrice stoplossPrice : ℚ)
    (trailing : Option ℚ) : State × Except CreateErr Group × List Cmd :=
  if (st.groups.lookup gid).isSome then (st, .error .alreadyExists, [])
  else
    let placeCmds := [Cmd.placeOrder orderType "LIMIT" targetPrice]
    match env.placeTarget with
    | .error e => (st, .error (.targetPlace e), placeCmds)
    | .ok tresp =>
      let placeCmds := placeCmds ++
        [Cmd.placeOrder (oppositeSide orderType) "STOPLOSS_LIMIT" stoplossPrice]
      match env.placeStoploss with
      | .error e =>
        match tresp.orderId with
        | none => (st, .error (.stoplossPlace e), placeCmds)
        | some tid =>
          match env.cancelOrder tid with
          | .ok _ =>
            (st, .error (.stoplossPlace e), placeCmds ++ [Cmd.cancelOrder tid])
          | .error ce =>
            (st, .error (.rollbackCancel ce), placeCmds ++ [Cmd.cancelOrder tid])
      | .ok sresp =>
        let g : Group :=
          { tradingsymbol := tradingsymbol, exchange := exchange
            orderType := orderType, quantity := quantity
            targetOrderId := tresp.orderId, stoplossOrderId := sresp.orderId
            status := "OPEN", trailing := trailing, lastPrice := none }
        let row : DbRow :=
          { tradingsymbol := tradingsymbol, exchange := exchange
            parentOrderId := none, targetOrderId := tresp.orderId
            stoplossOrderId := sresp.orderId, status := "OPEN" }
        ({ groups := st.groups ++ [(gid, g)], db := dbUpsert st.db gid row },
         .ok g, placeCmds)

/-- The status write performed at the end of a successful `cancel_group`
(lines 221-222): the in-memory entry and the DB row are both set to
`CANCELLED`. -/
def setGroupCancelled (st : State) (gid : String) : State :=
  { groups := st.groups.map fun p =>
      if p.1 = gid then (p.1, { p.2 with status := "CANCELLED" }) else p
    db := st.db.map fun p =>
      if p.1 = gid then (p.1, { p.2 with status := "CANCELLED" }) else p }

/-- Backend `cancel_group` (lines 207-227): an unknown id returns `false`;
otherwise one `try` block cancels the target (when it has an id) and then
the stoploss (when it has an id) and marks the group `CANCELLED`, returning
`true` - but the first cancel that raises aborts the whole block: the
exception is caught and logged at the function level, later cancels are
never attempted, no status is written, and `false` is returned. -/
def cancelGroup (env : Env) (st : State) (gid : String) :
    State × Bool × List Cmd :=
  match st.groups.lookup gid with
  | none => (st, false, [])
  | some g =>
    match g.targetOrderId with
    | some tid =>
      match env.cancelOrder tid with
      | .error _ => (st, false, [Cmd.cancelOrder tid])
      | .ok _ =>
        match g.stoplossOrderId with
        | some sid =>
          match env.cancelOrder sid with
          | .error _ => (st, false, [Cmd.cancelOrder tid, Cmd.cancelOrder sid])
          | .ok _ =>
            (setGroupCancelled st gid, true,
             [Cmd.cancelOrder tid, Cmd.cancelOrder sid])
        | none => (setGroupCancelled st gid, true, [Cmd.cancelOrder tid])
    | none =>
      match g.stoplossOrderId with
      | some sid =>
        match env.cancelOrder sid with
        | .error _ => (st, false, [Cmd.cancelOrder sid])
        | .ok _ => (setGroupCancelled st gid, true, [Cmd.cancelOrder sid])
      | none => (setGroupCancelled st gid, true, [])

end BE

namespace TE

/-- The terminal leg statuses of the orchestrator's leg state machine
(`PENDING → PLACED → {FILLED | CANCELLED | REJECTED}`); used only to state
the claims that speak about "terminal" legs. -/
def legTerminalStatuses : List String := ["FILLED", "CANCELLED", "REJECTED"]

/-- The "terminal non-fill" leg statuses (cancelled in any spelling the
source recognises, or rejected); used only to state claim C6. -/
def terminalNonFillStatuses : List String :=
  ["CANCELLED", "CXL", "CANCELED", "REJECTED"]

end TE

section Fixtures

/-- A gateway environment in which every call succeeds, used by the closed
evaluation theorems. -/
def envAllOk : TE.Env :=
  { placeParentResp := .ok ⟨[], some "P"⟩
    placeChildResp := fun n => .ok ⟨[some (toString n)], none⟩
    cancelSucceeds := fun _ => true
    getOrderFilled := .ok (some 100) }

/-- An empty order payload fixture. -/
def payFix : TE.Payload := {}

/-- Store fixture for claim C5: a placed target leg next to a stoploss leg
that is already terminal (`FILLED`) but still carries its broker id. -/
def storeC5 : TE.Store :=
  { group := ⟨payFix, some "P", "PARENT_FILLED_CHILDREN_PLACED"⟩
    children :=
      [ ⟨1, "target", 100, 110, payFix, some "T1", "PLACED", false⟩,
        ⟨2, "stoploss", 100, 95, payFix, some "S1", "FILLED", false⟩ ] }

/-- Store fixture for claim C6: a placed leg next to a `REJECTED` leg. -/
def storeC6 : TE.Store :=
  { group := ⟨payFix, some "P", "PARENT_FILLED_CHILDREN_PLACED"⟩
    children :=
      [ ⟨1, "target", 100, 110, payFix, some "A", "PLACED", false⟩,
        ⟨2, "stoploss", 100, 95, payFix, some "B", "REJECTED", false⟩ ] }

/-- Store fixture for the C1/C2 witnesses: both exit legs placed. -/
def storePlaced : TE.Store :=
  { group := ⟨payFix, some "P", "PARENT_FILLED_CHILDREN_PLACED"⟩
    children :=
      [ ⟨1, "target", 100, 110, payFix, some "T1", "PLACED", false⟩,
        ⟨2, "stoploss", 100, 95, payFix, some "S1", "PLACED", false⟩ ] }

/-- Store fixture for the C2 witness: both exit legs still pending. -/
def storePending : TE.Store :=
  { group := ⟨payFix, some "P", "PARENT_PLACED"⟩
    children :=
      [ ⟨1, "target", 100, 110, payFix, none, "PENDING", false⟩,
        ⟨2, "stoploss", 100, 95, payFix, none, "PENDING", false⟩ ] }

/-- Backend state fixture: one open group with both legs placed. -/
def bStateFix : BE.State :=
  { groups :=
      [("g1", ⟨"RELIANCE", "NSE", "BUY", 100, some "T", some "S", "OPEN",
               none, none⟩)]
    db := [("g1", ⟨"RELIANCE", "NSE", none, some "T", some "S", "OPEN"⟩)] }

/-- Backend environment fixture for claim C9: cancelling the target raises
("order already filled") while cancelling the stoploss would succeed. -/
def bEnvC9 : BE.Env :=
  { placeTarget := .ok ⟨some "T"⟩
    placeStoploss := .ok ⟨some "S"⟩
    cancelOrder := fun oid =>
      if oid = "T" then .error "order already filled" else .ok () }

/-- Backend environment fixture for claim C10: the target placement
succeeds, the stoploss placement raises, the rollback cancel succeeds. -/
def bEnvC10 : BE.Env :=
  { placeTarget := .ok ⟨some "T"⟩
    placeStoploss := .error "margin shortfall"
    cancelOrder := fun _ => .ok () }

end Fixtures

section HelperLemmas

/-- The children-placement loop leaves a list of already-placed children (all
broker ids set) untouched and issues no command. -/
theorem placeChildren_skips_placed (env : TE.Env) (cs : List TE.Child)
    (h : ∀ c ∈ cs, c.orderId.isSome) :
    TE.placeChildren env cs = (cs, []) := by
  induction cs with
  | nil => rfl
  | cons c cs ih =>
    obtain ⟨o, ho⟩ := Option.isSome_iff_exists.mp (h c (by simp))
    simp [TE.placeChildren, TE.placeChildStep, ho,
      ih (fun x hx => h x (by simp [hx]))]

/-- When every child placement returns a response carrying an order id, the
children-placement loop leaves every child with its broker id set. -/
theorem placeChildren_all_ids_set (env : TE.Env) (cs : List TE.Child)
    (h : ∀ n, ∃ r, env.placeChildResp n = .ok r ∧ (TE.extractOrderId r).isSome) :
    ∀ c ∈ (TE.placeChildren env cs).1, c.orderId.isSome := by
  induction cs with
  | nil => simp [TE.placeChildren]
  | cons c cs ih =>
    intro x hx
    simp only [TE.placeChildren, List.mem_cons] at hx
    rcases hx with hx | hx
    · subst hx
      cases ho : c.orderId with
      | some o => simp [TE.placeChildStep, ho]
      | none =>
        obtain ⟨r, hr, hs⟩ := h c.childId
        simp [TE.placeChildStep, ho, hr, hs]
    · exact ih x hx

/-- The sibling-cancellation loop issues exactly one cancel per child that
is not the filled one and has a broker id, in list order. -/
theorem cancelSiblings_trace (env : TE.Env) (fid : Nat) (cs : List TE.Child) :
    (TE.cancelSiblings env fid cs).2 =
      cs.filterMap (fun c =>
        if c.childId = fid then none else c.orderId.map TE.Cmd.cancelOrder) := by
  induction cs with
  | nil => rfl
  | cons c cs ih =>
    simp only [TE.cancelSiblings, ih, List.filterMap_cons]
    by_cases h : c.childId = fid
    · simp [TE.cancelSiblingStep, h]
    · cases ho : c.orderId with
      | none => simp [TE.cancelSiblingStep, h, ho]
      | some o =>
        by_cases hc : env.cancelSucceeds o <;>
          simp [TE.cancelSiblingStep, h, ho, hc]

/-- The sibling-cancellation loop marks `CANCELLED` exactly the non-filled
children with a broker id whose gateway cancel succeeded, and touches no
other row. -/
theorem cancelSiblings_children (env : TE.Env) (fid : Nat) (cs : List TE.Child) :
    (TE.cancelSiblings env fid cs).1 =
      cs.map (fun c =>
        if c.childId = fid then c
        else match c.orderId with
          | none => c
          | some o =>
            if env.cancelSucceeds o then { c with status := "CANCELLED" }
            else c) := by
  induction cs with
  | nil => rfl
  | cons c cs ih =>
    simp only [TE.cancelSiblings, ih, List.map_cons]
    by_cases h : c.childId = fid
    · simp [TE.cancelSiblingStep, h]
    · cases ho : c.orderId with
      | none => simp [TE.cancelSiblingStep, h, ho]
      | some o =>
        by_cases hc : env.cancelSucceeds o <;>
          simp [TE.cancelSiblingStep, h, ho, hc]

/-- Role, broker id and status of the target rows `create_group` inserts. -/
theorem targetLegs_shape (parent : TE.Payload) (i : Nat) (ts : List TE.TargetSpec) :
    (TE.targetLegs parent i ts).map (fun c => (c.role, c.orderId, c.status)) =
      List.replicate ts.length ("target", (none : Option String), "PENDING") := by
  induction ts generalizing i with
  | nil => rfl
  | cons t ts ih => simp [TE.targetLegs, ih, List.replicate_succ]

/-- Payloads of the target rows `create_group` inserts: the supplied payload
when present, else the synthesized exit payload. -/
theorem targetLegs_payloads (parent : TE.Payload) (i : Nat)
    (ts : List TE.TargetSpec) :
    (TE.targetLegs parent i ts).map (fun c => c.payload) =
      ts.map (fun t =>
        t.payload.getD (TE.synthExitPayload parent t.qty t.price "LIMIT")) := by
  induction ts generalizing i with
  | nil => rfl
  | cons t ts ih => simp [TE.targetLegs, ih]

end HelperLemmas

/-- C4: a trailing-stop monitor cycle that sees no price observation changes
nothing - over any run of consecutive cycles whose `get_ltp` result is
`None`, the stored stop price and the running best price are exactly what
they were before the first such cycle, and no `modify_order` call is made,
whatever each cycle's modify outcome would have been. -/
theorem tsl_missing_price_frame (trailBy : ℚ) (trailType : String)
    (cycles : List (Option ℚ × Bool)) (st : TE.TslState)
    (h : ∀ x ∈ cycles, x.1 = none) :
    TE.tslRun trailBy trailType cycles st = (st, []) := by
  induction cycles with
  | nil => rfl
  | cons c rest ih =>
    obtain ⟨o, mok⟩ := c
    have ho : o = none := h (o, mok) (by simp)
    subst ho
    simp [TE.tslRun, TE.tslStep, ih (fun x hx => h x (by simp [hx]))]

/-- Witness for C4: five consecutive `None` polls leave a stop at 95 with no
best price exactly unchanged, with no gateway command. -/
theorem tsl_missing_price_frame_witness :
    TE.tslRun 5 "points" (List.replicate 5 ((none : Option ℚ), true))
      ⟨none, 95⟩ = (⟨none, 95⟩, []) :=
  tsl_missing_price_frame 5 "points" _ _ (by decide)

/-- C3 (code bug): `_tsl_runner` discards the direction it derives from the
leg's own order side (line 400) and hardcodes `is_long = True` (line 404),
so a short-position stop leg - a BUY order, for which the derived flag is
`false` - is trailed as if it were long: from a stored stop of 110, one
observation at 200 moves the stop up to 195, strictly increasing the stop
price of a BUY stop leg, where the specified behaviour never raises it. -/
theorem tsl_short_stop_price_raised :
    TE.tslIsLongFromPayload { orderType := some "BUY" } = false ∧
    TE.tslIsLong = true ∧
    (TE.tslRun 5 "points" [(some 200, true)] ⟨none, 110⟩).1.current = 195 ∧
    (110 : ℚ) < 195 := by
  refine ⟨by decide, rfl, ?_, by norm_num⟩
  have hlt : (110 : ℚ) + TE.tslEps < 200 - 5 := by
    rw [TE.tslEps]; norm_num
  simp [TE.tslRun, TE.tslStep, TE.tslIsLong, hlt]
  norm_num

/-- C7: with `place_parent_immediately=False`, `create_group` performs no
gateway call at all; the store afterwards holds the group row with status
`CREATED` and no parent order id, one `PENDING` target row per target and a
`PENDING` stoploss row when a stoploss was given, none carrying a broker
id; and a leg whose order spec was not supplied gets the synthesized exit
payload, whose side is opposite to the parent side, whose instrument and
exchange are the parent's, and whose product type is inherited from the
parent. -/
theorem create_group_durable_no_network (env : TE.Env) (parent : TE.Payload)
    (targets : List TE.TargetSpec) (stoploss : Option TE.SlSpec)
    (q : Int) (p : ℚ) (pt : String) :
    (TE.createGroup env parent targets stoploss false).2 = [] ∧
    (TE.createGroup env parent targets stoploss false).1.group =
      ⟨parent, none, "CREATED"⟩ ∧
    (TE.createGroup env parent targets stoploss false).1.children.map
        (fun c => (c.role, c.orderId, c.status)) =
      List.replicate targets.length ("target", (none : Option String), "PENDING")
        ++ (match stoploss with
            | none => []
            | some _ => [("stoploss", (none : Option String), "PENDING")]) ∧
    (TE.createGroup env parent targets stoploss false).1.children.map
        (fun c => c.payload) =
      targets.map (fun t =>
        t.payload.getD (TE.synthExitPayload parent t.qty t.price "LIMIT"))
        ++ (match stoploss with
            | none => []
            | some s => [s.payload.getD (TE.synthExitPayload parent s.qty s.price
                (if 0 < s.price then "LIMIT" else "SL"))]) ∧
    (parent.orderType = some "BUY" →
      (TE.synthExitPayload parent q p pt).orderType = some "SELL") ∧
    (parent.orderType = some "SELL" →
      (TE.synthExitPayload parent q p pt).orderType = some "BUY") ∧
    (TE.synthExitPayload parent q p pt).tradingsymbol = parent.tradingsymbol ∧
    (TE.synthExitPayload parent q p pt).exchange = parent.exchange ∧
    (TE.synthExitPayload parent q p pt).productType =
      some (parent.productType.getD "NORMAL") := by
  refine ⟨rfl, rfl, ?_, ?_, ?_, ?_, rfl, rfl, rfl⟩
  · cases stoploss <;>
      simp [TE.createGroup, TE.stoplossLegs, targetLegs_shape]
  · cases stoploss <;>
      simp [TE.createGroup, TE.stoplossLegs, targetLegs_payloads]
  · intro h; simp [TE.synthExitPayload, h]; decide
  · intro h; simp [TE.synthExitPayload, h]; decide

/-- Witness for C7 at a concrete input: one target and one stoploss under a
BUY parent; no command is issued, rows are `CREATED`/`PENDING`, and the
synthesized side is SELL. -/
theorem create_group_durable_no_network_witness :
    (TE.createGroup envAllOk
        { orderType := some "BUY", tradingsymbol := some "RELIANCE",
          exchange := some "NSE", productType := some "CNC" }
        [⟨100, 110, none⟩] (some ⟨100, 95, none, some ⟨true⟩⟩) false).2 = [] ∧
    (TE.synthExitPayload
        { orderType := some "BUY", tradingsymbol := some "RELIANCE",
          exchange := some "NSE", productType := some "CNC" }
        100 95 "LIMIT").orderType = some "SELL" :=
  ⟨(create_group_durable_no_network envAllOk _ _ _ 100 95 "LIMIT").1,
   (create_group_durable_no_network envAllOk
      { orderType := some "BUY", tradingsymbol := some "RELIANCE",
        exchange := some "NSE", productType := some "CNC" }
      [⟨100, 110, none⟩] (some ⟨100, 95, none, some ⟨true⟩⟩)
      100 95 "LIMIT").2.2.2.2.1 rfl⟩

/-- C8: `place_parent` on an absent group fails with the not-found error
before any gateway call; when the gateway `place` raises, the error
propagates with the group row exactly as it was; on success the extracted
broker order id and status `PARENT_PLACED` are persisted. -/
theorem place_parent_spec (env : TE.Env) (g : TE.Group) (resp : TE.PlaceResp) :
    TE.placeParent env none = (none, .error .notFound, []) ∧
    (env.placeParentResp = .error () →
      TE.placeParent env (some g) =
        (some g, .error .gateway, [TE.Cmd.placeParentOrder])) ∧
    (env.placeParentResp = .ok resp →
      TE.placeParent env (some g) =
        (some { g with parentOrderId := TE.extractOrderId resp,
                       status := "PARENT_PLACED" },
         .ok resp, [TE.Cmd.placeParentOrder])) := by
  refine ⟨rfl, ?_, ?_⟩ <;> intro h <;> simp [TE.placeParent, h]

/-- Witness for C8 at concrete inputs: the not-found case, an erroring
gateway leaving the group row untouched, and a successful placement
persisting order id "P" with status `PARENT_PLACED`. -/
theorem place_parent_spec_witness :
    TE.placeParent envAllOk none = (none, .error .notFound, []) ∧
    TE.placeParent
        { envAllOk with placeParentResp := .error () }
        (some ⟨payFix, none, "CREATED"⟩) =
      (some ⟨payFix, none, "CREATED"⟩, .error .gateway,
       [TE.Cmd.placeParentOrder]) ∧
    TE.placeParent envAllOk (some ⟨payFix, none, "CREATED"⟩) =
      (some ⟨payFix, some "P", "PARENT_PLACED"⟩, .ok ⟨[], some "P"⟩,
       [TE.Cmd.placeParentOrder]) :=
  ⟨(place_parent_spec envAllOk ⟨payFix, none, "CREATED"⟩ ⟨[], some "P"⟩).1,
   (place_parent_spec { envAllOk with placeParentResp := .error () }
      ⟨payFix, none, "CREATED"⟩ ⟨[], some "P"⟩).2.1 rfl,
   (place_parent_spec envAllOk ⟨payFix, none, "CREATED"⟩ ⟨[], some "P"⟩).2.2 rfl⟩

/-- C1: for a group with a placed target leg and a placed stoploss leg,
delivering a `FILLED` event for either leg once ends with that leg stored
as `FILLED`, its sibling `CANCELLED` and the group `CHILD_FILLED`; and
delivering the identical event a second time reproduces exactly that state
- the second delivery neither raises (the model is total, as the source's
handler catches and logs every exception) nor changes any group or leg
field. -/
theorem fill_event_idempotent (env : TE.Env) (g : TE.Group)
    (tgt sl : TE.Child) (tid sid : String) (m : TE.Msg)
    (hrt : tgt.role = "target") (hrs : sl.role = "stoploss")
    (hto : tgt.orderId = some tid) (hso : sl.orderId = some sid)
    (hts : tgt.status = "PLACED") (hss : sl.status = "PLACED")
    (hids : tgt.childId ≠ sl.childId)
    (htid : tid ≠ "") (hsid : sid ≠ "") (hne : tid ≠ sid)
    (hpart : g.parentOrderId ≠ some tid)
    (hpars : g.parentOrderId ≠ some sid)
    (hm : m.orderId = some tid ∨ m.orderId = some sid)
    (hstat : TE.statusU m = "FILLED")
    (hcant : env.cancelSucceeds tid = true)
    (hcans : env.cancelSucceeds sid = true) :
    ((m.orderId = some tid →
      (TE.handleOrderUpdate env ⟨g, [tgt, sl]⟩ m).1 =
        ⟨{ g with status := "CHILD_FILLED" },
         [{ tgt with orderId := some tid, status := "FILLED" },
          { sl with status := "CANCELLED" }]⟩) ∧
     (m.orderId = some sid →
      (TE.handleOrderUpdate env ⟨g, [tgt, sl]⟩ m).1 =
        ⟨{ g with status := "CHILD_FILLED" },
         [{ tgt with status := "CANCELLED" },
          { sl with orderId := some sid, status := "FILLED" }]⟩)) ∧
    (TE.handleOrderUpdate env
        (TE.handleOrderUpdate env ⟨g, [tgt, sl]⟩ m).1 m).1 =
      (TE.handleOrderUpdate env ⟨g, [tgt, sl]⟩ m).1 := by
  rcases hm with hm | hm
  · -- the target leg fills; the stoploss leg is the cancelled sibling
    have h1 : (TE.handleOrderUpdate env ⟨g, [tgt, sl]⟩ m).1 =
        ⟨{ g with status := "CHILD_FILLED" },
         [{ tgt with orderId := some tid, status := "FILLED" },
          { sl with status := "CANCELLED" }]⟩ := by
      simp [TE.handleOrderUpdate, hm, htid, hpart, List.find?, hto,
        TE.handleChildUpdate, hstat, TE.childFillStatuses, TE.updateChild,
        TE.cancelSiblings, TE.cancelSiblingStep, Ne.symm hids, hso, hcans]
    refine ⟨⟨fun _ => h1,
      fun h' => absurd (Option.some.inj (hm.symm.trans h')) hne⟩, ?_⟩
    rw [h1]
    simp [TE.handleOrderUpdate, hm, htid, hpart, List.find?,
      TE.handleChildUpdate, hstat, TE.childFillStatuses, TE.updateChild,
      TE.cancelSiblings, TE.cancelSiblingStep, Ne.symm hids, hso, hcans]
  · -- the stoploss leg fills; the target leg is the cancelled sibling
    have hbe : (tid == sid) = false := by simp [hne]
    have h1 : (TE.handleOrderUpdate env ⟨g, [tgt, sl]⟩ m).1 =
        ⟨{ g with status := "CHILD_FILLED" },
         [{ tgt with status := "CANCELLED" },
          { sl with orderId := some sid, status := "FILLED" }]⟩ := by
      simp [TE.handleOrderUpdate, hm, hsid, hpars, List.find?, hto, hso, hbe,
        TE.handleChildUpdate, hstat, TE.childFillStatuses, TE.updateChild,
        TE.cancelSiblings, TE.cancelSiblingStep, hids, Ne.symm hids, hcant]
    refine ⟨⟨fun h' => absurd (Option.some.inj (h'.symm.trans hm)) hne,
      fun _ => h1⟩, ?_⟩
    rw [h1]
    simp [TE.handleOrderUpdate, hm, hsid, hpars, List.find?, hto, hso, hbe,
      TE.handleChildUpdate, hstat, TE.childFillStatuses, TE.updateChild,
      TE.cancelSiblings, TE.cancelSiblingStep, hids, Ne.symm hids, hcant]

/-- Witness for C1 at concrete inputs, exercising both directions: filling
stoploss order "S1" of a two-leg group twice yields the same final state as
once - sibling "T1" `CANCELLED`, group `CHILD_FILLED` - and filling target
order "T1" symmetrically cancels "S1". -/
theorem fill_event_idempotent_witness :
    (TE.handleOrderUpdate envAllOk storePlaced
        ⟨some "S1", some "FILLED", some 100⟩).1 =
      ⟨⟨payFix, some "P", "CHILD_FILLED"⟩,
       [⟨1, "target", 100, 110, payFix, some "T1", "CANCELLED", false⟩,
        ⟨2, "stoploss", 100, 95, payFix, some "S1", "FILLED", false⟩]⟩ ∧
    (TE.handleOrderUpdate envAllOk
        (TE.handleOrderUpdate envAllOk storePlaced
          ⟨some "S1", some "FILLED", some 100⟩).1
        ⟨some "S1", some "FILLED", some 100⟩).1 =
      (TE.handleOrderUpdate envAllOk storePlaced
        ⟨some "S1", some "FILLED", some 100⟩).1 ∧
    (TE.handleOrderUpdate envAllOk storePlaced
        ⟨some "T1", some "FILLED", some 100⟩).1 =
      ⟨⟨payFix, some "P", "CHILD_FILLED"⟩,
       [⟨1, "target", 100, 110, payFix, some "T1", "FILLED", false⟩,
        ⟨2, "stoploss", 100, 95, payFix, some "S1", "CANCELLED", false⟩]⟩ :=
  ⟨(fill_event_idempotent envAllOk
      ⟨payFix, some "P", "PARENT_FILLED_CHILDREN_PLACED"⟩
      ⟨1, "target", 100, 110, payFix, some "T1", "PLACED", false⟩
      ⟨2, "stoploss", 100, 95, payFix, some "S1", "PLACED", false⟩
      "T1" "S1" ⟨some "S1", some "FILLED", some 100⟩
      rfl rfl rfl rfl rfl rfl (by decide) (by decide) (by decide) (by decide)
      (by decide) (by decide) (Or.inr rfl) rfl rfl rfl).1.2 rfl,
   (fill_event_idempotent envAllOk
      ⟨payFix, some "P", "PARENT_FILLED_CHILDREN_PLACED"⟩
      ⟨1, "target", 100, 110, payFix, some "T1", "PLACED", false⟩
      ⟨2, "stoploss", 100, 95, payFix, some "S1", "PLACED", false⟩
      "T1" "S1" ⟨some "S1", some "FILLED", some 100⟩
      rfl rfl rfl rfl rfl rfl (by decide) (by decide) (by decide) (by decide)
      (by decide) (by decide) (Or.inr rfl) rfl rfl rfl).2,
   (fill_event_idempotent envAllOk
      ⟨payFix, some "P", "PARENT_FILLED_CHILDREN_PLACED"⟩
      ⟨1, "target", 100, 110, payFix, some "T1", "PLACED", false⟩
      ⟨2, "stoploss", 100, 95, payFix, some "S1", "PLACED", false⟩
      "T1" "S1" ⟨some "T1", some "FILLED", some 100⟩
      rfl rfl rfl rfl rfl rfl (by decide) (by decide) (by decide) (by decide)
      (by decide) (by decide) (Or.inl rfl) rfl rfl rfl).1.1 rfl⟩

/-- C2: once every leg of a group carries a broker order id - in particular
after a parent-fill event on which every pending leg's placement returned
an id - a further equivalent parent-fill event places nothing: its only
gateway command is the parent-order status fetch, and the group and leg
rows are bit-for-bit unchanged, so no duplicate child order is ever sent. -/
theorem no_double_child_placement (env : TE.Env) (s : TE.Store) (m : TE.Msg)
    (oid : String)
    (hm : m.orderId = some oid) (hne : oid ≠ "")
    (hpar : s.group.parentOrderId = some oid)
    (hfill : TE.statusU m ∈ TE.parentFillTriggers)
    (hqty : 0 < TE.resolvedFilled env m)
    (hplace : ∀ n, ∃ r, env.placeChildResp n = .ok r ∧
      (TE.extractOrderId r).isSome) :
    (∀ c ∈ (TE.handleOrderUpdate env s m).1.children, c.orderId.isSome) ∧
    TE.handleOrderUpdate env (TE.handleOrderUpdate env s m).1 m =
      ((TE.handleOrderUpdate env s m).1, [TE.Cmd.getOrder oid]) := by
  have h1 : TE.handleOrderUpdate env s m =
      (⟨{ s.group with status := "PARENT_FILLED_CHILDREN_PLACED" },
        (TE.placeChildren env s.children).1⟩,
       TE.Cmd.getOrder oid :: (TE.placeChildren env s.children).2) := by
    simp [TE.handleOrderUpdate, hm, hne, hpar, TE.handleParentUpdate,
      hfill, hqty]
  have hall : ∀ c ∈ (TE.placeChildren env s.children).1, c.orderId.isSome :=
    placeChildren_all_ids_set env s.children hplace
  constructor
  · rw [h1]; exact hall
  · rw [h1]
    simp [TE.handleOrderUpdate, hm, hne, hpar, TE.handleParentUpdate,
      hfill, hqty, placeChildren_skips_placed env _ hall]

/-- Witness for C2 at a concrete input: a parent fill on a group with two
pending legs places both; the same event again issues only the status
fetch and changes nothing. -/
theorem no_double_child_placement_witness :
    (∀ c ∈ (TE.handleOrderUpdate envAllOk storePending
        ⟨some "P", some "COMPLETE", some 100⟩).1.children, c.orderId.isSome) ∧
    TE.handleOrderUpdate envAllOk
        (TE.handleOrderUpdate envAllOk storePending
          ⟨some "P", some "COMPLETE", some 100⟩).1
        ⟨some "P", some "COMPLETE", some 100⟩ =
      ((TE.handleOrderUpdate envAllOk storePending
          ⟨some "P", some "COMPLETE", some 100⟩).1,
       [TE.Cmd.getOrder "P"]) :=
  no_double_child_placement envAllOk storePending
    ⟨some "P", some "COMPLETE", some 100⟩ "P"
    rfl (by decide) rfl (by decide) (by decide)
    (fun n => ⟨⟨[some (toString n)], none⟩, rfl, rfl⟩)

/-- Counterexample to C5 as stated: in `storeC5` the only sibling of the
filled target is already terminal (`FILLED`) yet still carries its broker
id, and the handler issues a gateway cancel for it anyway - the claim's
"cancels exactly those other legs whose status is not already terminal"
requires an empty cancel set here - and then overwrites its terminal
`FILLED` status with `CANCELLED`. -/
theorem sibling_cancel_terminal_counterexample :
    (TE.handleOrderUpdate envAllOk storeC5
        ⟨some "T1", some "FILLED", some 100⟩).2 = [TE.Cmd.cancelOrder "S1"] ∧
    storeC5.children.map (fun c => c.status) = ["PLACED", "FILLED"] ∧
    TE.legTerminalStatuses.contains "FILLED" = true ∧
    (TE.handleOrderUpdate envAllOk storeC5
        ⟨some "T1", some "FILLED", some 100⟩).1.children.map
      (fun c => c.status) = ["FILLED", "CANCELLED"] := by decide

/-- C5 as amended: on a fill event for a child leg the handler cancels
every other leg whose broker order id is set - with no regard to whether
that sibling's status is already terminal - marks `CANCELLED` exactly the
siblings whose gateway cancel succeeded (a raising cancel is logged and the
loop continues), and sets the group status `CHILD_FILLED`; for a two-leg
group with a succeeding cancel the non-filled leg hence ends `CANCELLED`. -/
theorem sibling_cancel_amended (env : TE.Env) (g : TE.Group)
    (cs : List TE.Child) (m : TE.Msg) (oid : String) (c0 : TE.Child)
    (hm : m.orderId = some oid) (hne : oid ≠ "")
    (hpar : g.parentOrderId ≠ some oid)
    (hfind : cs.find? (fun c => c.orderId == some oid) = some c0)
    (hfill : TE.statusU m ∈ TE.childFillStatuses) :
    (TE.handleOrderUpdate env ⟨g, cs⟩ m).1.group.status = "CHILD_FILLED" ∧
    (TE.handleOrderUpdate env ⟨g, cs⟩ m).2 =
      cs.filterMap (fun c =>
        if c.childId = c0.childId then none
        else c.orderId.map TE.Cmd.cancelOrder) ∧
    (TE.handleOrderUpdate env ⟨g, cs⟩ m).1.children =
      cs.map (fun c =>
        if c.childId = c0.childId then
          { c with orderId := m.orderId, status := TE.statusU m }
        else match c.orderId with
          | none => c
          | some o =>
            if env.cancelSucceeds o then { c with status := "CANCELLED" }
            else c) := by
  have hd : TE.handleOrderUpdate env ⟨g, cs⟩ m =
      TE.handleChildUpdate env ⟨g, cs⟩ c0.childId m := by
    simp [TE.handleOrderUpdate, hm, hne, hpar, hfind]
  rw [hd]
  simp only [TE.handleChildUpdate, if_pos hfill]
  refine ⟨trivial, ?_, ?_⟩
  · rw [cancelSiblings_trace, TE.updateChild, List.filterMap_map]
    congr 1
    funext c
    by_cases h : c.childId = c0.childId <;> simp [h]
  · rw [cancelSiblings_children, TE.updateChild, List.map_map]
    congr 1
    funext c
    by_cases h : c.childId = c0.childId <;> simp [h]

/-- Witness for the amended C5 at a concrete input: filling target "T1" of
the two-leg `storePlaced` group sets the group `CHILD_FILLED`. -/
theorem sibling_cancel_amended_witness :
    (TE.handleOrderUpdate envAllOk
        ⟨⟨payFix, some "P", "PARENT_FILLED_CHILDREN_PLACED"⟩,
         [⟨1, "target", 100, 110, payFix, some "T1", "PLACED", false⟩,
          ⟨2, "stoploss", 100, 95, payFix, some "S1", "PLACED", false⟩]⟩
        ⟨some "T1", some "FILLED", some 100⟩).1.group.status = "CHILD_FILLED" :=
  (sibling_cancel_amended envAllOk
    ⟨payFix, some "P", "PARENT_FILLED_CHILDREN_PLACED"⟩
    [⟨1, "target", 100, 110, payFix, some "T1", "PLACED", false⟩,
     ⟨2, "stoploss", 100, 95, payFix, some "S1", "PLACED", false⟩]
    ⟨some "T1", some "FILLED", some 100⟩ "T1"
    ⟨1, "target", 100, 110, payFix, some "T1", "PLACED", false⟩
    rfl (by decide) (by decide) (by decide) (by decide)).1

/-- Counterexample to C6 as stated: in `storeC6` a cancel event for leg "A"
leaves every leg in a terminal non-fill state (`CANCELLED`, `REJECTED`),
so the claim requires the group status to become `ALL_CHILDREN_CANCELLED`,
but the code checks only the cancelled spellings, the `REJECTED` leg fails
that check, and the group status is left unchanged. -/
theorem all_cancelled_rejected_counterexample :
    (TE.handleOrderUpdate envAllOk storeC6
        ⟨some "A", some "CANCELLED", some 0⟩).1.children.map
      (fun c => c.status) = ["CANCELLED", "REJECTED"] ∧
    (TE.handleOrderUpdate envAllOk storeC6
        ⟨some "A", some "CANCELLED", some 0⟩).1.children.all
      (fun c => TE.terminalNonFillStatuses.contains c.status) = true ∧
    (TE.handleOrderUpdate envAllOk storeC6
        ⟨some "A", some "CANCELLED", some 0⟩).1.group.status =
      "PARENT_FILLED_CHILDREN_PLACED" ∧
    "PARENT_FILLED_CHILDREN_PLACED" ≠ "ALL_CHILDREN_CANCELLED" := by decide

/-- C6 as amended: on a cancel event for a child leg, after that leg's row
is rewritten, the group status becomes `ALL_CHILDREN_CANCELLED` if and only
if every leg's (uppercased) stored status is one of the cancelled spellings
`CANCELLED`/`CXL`/`CANCELED`; any other status - in particular `REJECTED`,
though it is terminal and non-fill - blocks the transition and the group
status is left unchanged; no gateway command is issued. -/
theorem all_children_cancelled_amended (env : TE.Env) (g : TE.Group)
    (cs : List TE.Child) (m : TE.Msg) (oid : String) (c0 : TE.Child)
    (hm : m.orderId = some oid) (hne : oid ≠ "")
    (hpar : g.parentOrderId ≠ some oid)
    (hfind : cs.find? (fun c => c.orderId == some oid) = some c0)
    (hcanc : TE.statusU m ∈ TE.childCancelStatuses) :
    (TE.handleOrderUpdate env ⟨g, cs⟩ m).2 = [] ∧
    (TE.handleOrderUpdate env ⟨g, cs⟩ m).1.children =
      TE.updateChild c0.childId
        (fun c => { c with orderId := m.orderId, status := TE.statusU m }) cs ∧
    (TE.handleOrderUpdate env ⟨g, cs⟩ m).1.group.status =
      (if (TE.updateChild c0.childId
            (fun c => { c with orderId := m.orderId, status := TE.statusU m })
            cs).all
          (fun c => TE.childCancelStatuses.contains (TE.pyUpper c.status))
       then "ALL_CHILDREN_CANCELLED" else g.status) := by
  have hnf : TE.statusU m ∉ TE.childFillStatuses := by
    simp only [TE.childCancelStatuses, List.mem_cons, List.not_mem_nil,
      or_false] at hcanc
    rcases hcanc with h | h | h <;> rw [h] <;> decide
  have hd : TE.handleOrderUpdate env ⟨g, cs⟩ m =
      TE.handleChildUpdate env ⟨g, cs⟩ c0.childId m := by
    simp [TE.handleOrderUpdate, hm, hne, hpar, hfind]
  rw [hd]
  simp only [TE.handleChildUpdate, if_neg hnf, if_pos hcanc]
  by_cases hall : (TE.updateChild c0.childId
      (fun c => { c with orderId := m.orderId, status := TE.statusU m })
      cs).all (fun c => TE.childCancelStatuses.contains (TE.pyUpper c.status)) =
      true
  · simp only [if_pos hall]; exact ⟨trivial, trivial, trivial⟩
  · simp only [if_neg hall]; exact ⟨trivial, trivial, trivial⟩

/-- Witness for the amended C6 at a concrete input: a cancel event for leg
"A" while leg "B" is already `CANCELLED` takes the group to
`ALL_CHILDREN_CANCELLED`. -/
theorem all_children_cancelled_amended_witness :
    (TE.handleOrderUpdate envAllOk
        ⟨⟨payFix, some "P", "PARENT_FILLED_CHILDREN_PLACED"⟩,
         [⟨1, "target", 100, 110, payFix, some "A", "PLACED", false⟩,
          ⟨2, "stoploss", 100, 95, payFix, some "B", "CANCELLED", false⟩]⟩
        ⟨some "A", some "CANCELLED", some 0⟩).1.group.status =
      (if (TE.updateChild 1
            (fun c => { c with
              orderId := TE.Msg.orderId ⟨some "A", some "CANCELLED", some 0⟩,
              status := TE.statusU ⟨some "A", some "CANCELLED", some 0⟩ })
            [⟨1, "target", 100, 110, payFix, some "A", "PLACED", false⟩,
             ⟨2, "stoploss", 100, 95, payFix, some "B", "CANCELLED", false⟩]).all
          (fun c => TE.childCancelStatuses.contains (TE.pyUpper c.status))
       then "ALL_CHILDREN_CANCELLED"
       else "PARENT_FILLED_CHILDREN_PLACED") :=
  (all_children_cancelled_amended envAllOk
    ⟨payFix, some "P", "PARENT_FILLED_CHILDREN_PLACED"⟩
    [⟨1, "target", 100, 110, payFix, some "A", "PLACED", false⟩,
     ⟨2, "stoploss", 100, 95, payFix, some "B", "CANCELLED", false⟩]
    ⟨some "A", some "CANCELLED", some 0⟩ "A"
    ⟨1, "target", 100, 110, payFix, some "A", "PLACED", false⟩
    rfl (by decide) (by decide) (by decide) (by decide)).2.2

/-- Counterexample to C9 as stated: in `bStateFix` under `bEnvC9` the
target's cancel raises while the stoploss's would succeed; the claim
requires the stoploss still to be cancelled and the group to reach a
terminal cancelled status, but the code's single `try` block aborts on the
first raise - the stoploss cancel is never issued, the group status stays
`OPEN`, and `cancel_group` returns `False`. -/
theorem cancel_group_partial_failure_counterexample :
    BE.cancelGroup bEnvC9 bStateFix "g1" =
      (bStateFix, false, [BE.Cmd.cancelOrder "T"]) ∧
    BE.Cmd.cancelOrder "S" ∉ (BE.cancelGroup bEnvC9 bStateFix "g1").2.2 ∧
    ((BE.cancelGroup bEnvC9 bStateFix "g1").1.groups.lookup "g1").map
      (fun g => g.status) = some "OPEN" := by decide

/-- C9 as amended: `cancel_group` never propagates an exception (it always
returns a boolean); when every cancel it issues succeeds it cancels the
target and then the stoploss, marks the group `CANCELLED` in memory and in
the database, and returns `true`; but the first cancel that raises aborts
the single `try` block - later legs' cancels are not attempted, no status
is written, and it returns `false` with the state exactly unchanged. -/
theorem cancel_group_amended (env : BE.Env) (st : BE.State) (gid : String)
    (g : BE.Group) (t s2 : String)
    (hg : st.groups.lookup gid = some g)
    (ht : g.targetOrderId = some t) (hs : g.stoplossOrderId = some s2) :
    (env.cancelOrder t = .ok () → env.cancelOrder s2 = .ok () →
      BE.cancelGroup env st gid =
        (BE.setGroupCancelled st gid, true,
         [BE.Cmd.cancelOrder t, BE.Cmd.cancelOrder s2])) ∧
    (∀ e, env.cancelOrder t = .error e →
      BE.cancelGroup env st gid = (st, false, [BE.Cmd.cancelOrder t])) ∧
    (∀ e, env.cancelOrder t = .ok () → env.cancelOrder s2 = .error e →
      BE.cancelGroup env st gid =
        (st, false, [BE.Cmd.cancelOrder t, BE.Cmd.cancelOrder s2])) := by
  refine ⟨?_, ?_, ?_⟩
  · intro h1 h2
    simp [BE.cancelGroup, hg, ht, hs, h1, h2]
  · intro e h1
    simp [BE.cancelGroup, hg, ht, hs, h1]
  · intro e h1 h2
    simp [BE.cancelGroup, hg, ht, hs, h1, h2]

/-- Witness for the amended C9 at a concrete input: with every cancel
succeeding, cancelling group "g1" cancels "T" then "S", marks the group
`CANCELLED` and returns `true`. -/
theorem cancel_group_amended_witness :
    BE.cancelGroup
        { placeTarget := .ok ⟨some "T"⟩, placeStoploss := .ok ⟨some "S"⟩,
          cancelOrder := fun _ => .ok () } bStateFix "g1" =
      (BE.setGroupCancelled bStateFix "g1", true,
       [BE.Cmd.cancelOrder "T", BE.Cmd.cancelOrder "S"]) :=
  (cancel_group_amended
    { placeTarget := .ok ⟨some "T"⟩, placeStoploss := .ok ⟨some "S"⟩,
      cancelOrder := fun _ => .ok () } bStateFix "g1"
    ⟨"RELIANCE", "NSE", "BUY", 100, some "T", some "S", "OPEN", none, none⟩
    "T" "S" rfl rfl rfl).1 rfl rfl

/-- C10: in the backend `create_group`, when the target placement succeeds
and the stoploss placement raises, the operation cancels the just-placed
target (exactly when the target response carried an order id) after the
two placement attempts and before re-raising the stoploss error, and
registers nothing: the in-memory group map and the database are returned
exactly as they were, so no half-built group is left behind. -/
theorem be_create_group_rollback (st : BE.State)
    (gid ts ex ot : String) (q : Int) (tp sp : ℚ) (tr : Option ℚ)
    (env env' : BE.Env) (t e : String)
    (hfresh : st.groups.lookup gid = none)
    (h1 : env.placeTarget = .ok ⟨some t⟩)
    (h2 : env.placeStoploss = .error e)
    (hc : env.cancelOrder t = .ok ())
    (h1' : env'.placeTarget = .ok ⟨none⟩)
    (h2' : env'.placeStoploss = .error e) :
    BE.createGroup env st gid ts ex ot q tp sp tr =
      (st, .error (.stoplossPlace e),
       [BE.Cmd.placeOrder ot "LIMIT" tp,
        BE.Cmd.placeOrder (BE.oppositeSide ot) "STOPLOSS_LIMIT" sp,
        BE.Cmd.cancelOrder t]) ∧
    BE.createGroup env' st gid ts ex ot q tp sp tr =
      (st, .error (.stoplossPlace e),
       [BE.Cmd.placeOrder ot "LIMIT" tp,
        BE.Cmd.placeOrder (BE.oppositeSide ot) "STOPLOSS_LIMIT" sp]) := by
  constructor
  · simp [BE.createGroup, hfresh, h1, h2, hc]
  · simp [BE.createGroup, hfresh, h1', h2']

/-- Witness for C10 at a concrete input: target "T" placed, stoploss raises
"margin shortfall" - the target is cancelled, the stoploss error is
re-raised, and the state is unchanged (no group registered). -/
theorem be_create_group_rollback_witness :
    BE.createGroup bEnvC10 ⟨[], []⟩ "g9" "RELIANCE" "NSE" "BUY" 100 110 95
        none =
      ((⟨[], []⟩ : BE.State), .error (.stoplossPlace "margin shortfall"),
       [BE.Cmd.placeOrder "BUY" "LIMIT" 110,
        BE.Cmd.placeOrder (BE.oppositeSide "BUY") "STOPLOSS_LIMIT" 95,
        BE.Cmd.cancelOrder "T"]) :=
  (be_create_group_rollback ⟨[], []⟩ "g9" "RELIANCE" "NSE" "BUY" 100 110 95
    none bEnvC10
    { placeTarget := .ok ⟨none⟩, placeStoploss := .error "margin shortfall",
      cancelOrder := fun _ => .ok () }
    "T" "margin shortfall" rfl rfl rfl rfl rfl rfl).1
